import Mathlib

/-!
# The `crane registry serve` command (`cmd/crane/cmd/serve.go`)

A shallow embedding of `newCmdServe` and of the `RunE` closure it installs.
`RunE` is straight-line effectful code; the embedding threads a `World` (the
answers of the operating system, of the network, of the command context and of
the HTTP server) through it and records every call it makes, with its result,
in a trace of `Event`s.
-/

namespace Serve

/-! ## Go errors -/

/-- The `syscall.Errno` values the model distinguishes. -/
inductive Errno
  | ENOENT
  | EEXIST
  | EACCES
  | ENOTDIR
  | EROFS
  | EADDRINUSE
  | EMFILE
  deriving DecidableEq, Repr

/-- Non-nil Go `error` values. `wrap` stands for every error type with an
`Unwrap` method (`*fs.PathError`, `*net.OpError`, `fmt.Errorf` with `%w`). -/
inductive GoError
  | ErrServerClosed
  | ErrNotExist
  | Canceled
  | DeadlineExceeded
  | errno (e : Errno)
  | other (msg : String)
  | wrap (msg : String) (err : GoError)
  deriving DecidableEq, Repr

/-- A Go value of interface type `error`; `none` is `nil`. -/
abbrev error := Option GoError

/-- The method `(syscall.Errno).Is`, for the targets of this model. -/
def errnoIs (e : Errno) (target : GoError) : Bool :=
  match target with
  | .ErrNotExist => decide (e = .ENOENT)
  | _ => false

/-- The loop of `errors.Is` over the `Unwrap` chain of a non-nil error. -/
def chainIs (target : GoError) : GoError → Bool
  | .wrap msg err => decide (GoError.wrap msg err = target) || chainIs target err
  | .errno e => decide (GoError.errno e = target) || errnoIs e target
  | e => decide (e = target)

/-- The function `errors.Is(err, target)` for a non-nil `target`. -/
def errorsIs (err : error) (target : GoError) : Bool :=
  match err with
  | none => false
  | some e => chainIs target e

/-! ## The operating system: environment and file system -/

/-- The function `os.Getenv`: the value of the variable, `""` when it is unset. -/
def osGetenv (env : String → Option String) (key : String) : String :=
  match env key with
  | some v => v
  | none => ""

/-- What a path names. -/
inductive Node
  | file (data : String)
  | dir
  deriving DecidableEq, Repr

/-- A file system: the nodes by path, the directories whose entries cannot be
looked up (no search permission), and the reason, if any, why a directory cannot
be created at a free path under reachable parents (read-only file system, no
write permission on the parent). Paths are keys as spelled; they are not
cleaned. -/
structure FileSystem where
  nodes : List (String × Node)
  unsearchable : List String
  mkdirFault : String → Option Errno

/-- The path names an existing directory. -/
def FileSystem.isDir (fs : FileSystem) (path : String) : Bool :=
  decide (fs.nodes.lookup path = some Node.dir)

/-- The proper ancestors of a path, outermost first, read off its characters:
`a` and `a/b` for `a/b/c`. `seen` holds the characters read so far, last first.
The root and the empty step of a doubled slash are left out. -/
def ancestorsFrom (seen : List Char) : List Char → List String
  | [] => []
  | c :: cs =>
    if c = '/' then
      match seen with
      | [] => ancestorsFrom (c :: seen) cs
      | d :: _ =>
        if d = '/' then ancestorsFrom (c :: seen) cs
        else String.mk seen.reverse :: ancestorsFrom (c :: seen) cs
    else ancestorsFrom (c :: seen) cs

/-- The proper ancestors of a path, outermost first. -/
def ancestors (path : String) : List String :=
  ancestorsFrom [] path.data

/-- Path resolution through the given directories, outermost first: the errno
it stops with, if any. A missing one gives ENOENT, a regular file ENOTDIR, a
directory that cannot be searched EACCES. -/
def walk (fs : FileSystem) : List String → Option Errno
  | [] => none
  | d :: ds =>
    match fs.nodes.lookup d with
    | none => some .ENOENT
    | some (Node.file _) => some .ENOTDIR
    | some Node.dir => if d ∈ fs.unsearchable then some .EACCES else walk fs ds

/-- The error of `os.Stat(path)` (the `FileInfo` is discarded by the caller). -/
def osStat (fs : FileSystem) (path : String) : error :=
  match walk fs (ancestors path) with
  | some e => some (.wrap ("stat " ++ path) (.errno e))
  | none =>
    match fs.nodes.lookup path with
    | none => some (.wrap ("stat " ++ path) (.errno .ENOENT))
    | some _ => none

/-- The call `os.Mkdir(path, perm)`: the error and the file system afterwards. -/
def osMkdir (fs : FileSystem) (path : String) : error × FileSystem :=
  match walk fs (ancestors path) with
  | some e => (some (.wrap ("mkdir " ++ path) (.errno e)), fs)
  | none =>
    match fs.nodes.lookup path with
    | some _ => (some (.wrap ("mkdir " ++ path) (.errno .EEXIST)), fs)
    | none =>
      match fs.mkdirFault path with
      | some e => (some (.wrap ("mkdir " ++ path) (.errno e)), fs)
      | none =>
        (none, FileSystem.mk ((path, Node.dir) :: fs.nodes) fs.unsearchable fs.mkdirFault)

/-- The constant `os.ModePerm`. -/
def osModePerm : Nat := 0o777

/-! ## Network, context and HTTP server -/

/-- A bound TCP listener; `port` is `listener.Addr().(*net.TCPAddr).Port`. -/
structure Listener where
  port : Nat
  deriving DecidableEq, Repr

/-- A `context.Context` as seen at one moment: `err` is `ctx.Err()`, which is
`nil` exactly as long as `ctx.Done()` is not closed. -/
structure Context where
  err : error
  deriving DecidableEq, Repr

/-- Modelled from the spec: the blob handlers of package `registry`
(`NewInMemoryBlobHandler`, `NewDiskBlobHandler`), which is not among the
sources; they are the spec's BlobStore variants InMemoryBlobStore and
DiskBlobStore rooted at a path. -/
inductive BlobHandler
  | inMemory
  | onDisk (root : String)
  deriving DecidableEq, Repr

/-- Modelled from the spec: the handler built by `registry.New` from the options
`WithBlobHandler` and `WithDiskManifest` (package `registry` is not among the
sources): it is parameterized by a BlobStore and a manifest directory. -/
structure RegistryHandler where
  blobHandler : BlobHandler
  diskManifest : String
  deriving DecidableEq, Repr

/-- The `http.Server` value built by `RunE`; the timeout is in nanoseconds. -/
structure Server where
  readHeaderTimeout : Nat
  handler : RegistryHandler
  deriving DecidableEq, Repr

/-- The answers of everything `RunE` calls.
`cancel` is the error the command context ends with (`none`: it is never
cancelled); `shutdown` is the result of `s.Shutdown` for the context it is
given; `serve` is the value `s.Serve(listener)` eventually sends on `errCh`
(`none`: it never returns). -/
structure World where
  env : String → Option String
  listen : String → String → Except GoError Listener
  fs : FileSystem
  cancel : Option GoError
  shutdown : Context → error
  serve : Option error

/-! ## Runs -/

deriving instance DecidableEq for Except

/-- The calls made by `RunE`, in program order, each with its result. -/
inductive Event
  | getenv (key value : String)
  | listen (network address : String) (res : Except GoError Listener)
  | stat (path : String) (err : error)
  | mkdir (path : String) (perm : Nat) (err : error)
  | logPrintf (format : String) (args : List String)
  | logPrintln (line : String)
  | logFatalln (err : error)
  | goServe (l : Listener)
  | waitDone
  | ctxDone (ctx : Context)
  | shutdown (ctx : Context) (err : error)
  | recvErrCh (err : error)
  deriving DecidableEq

/-- How a run of `RunE` ends. -/
inductive Outcome
  | exited (code : Nat)
  | blocked
  | returned (err : error)
  deriving DecidableEq, Repr

/-- A run of `RunE`: its trace, the file system it leaves, the server value it
built (if it got that far) and how it ended. -/
structure Run where
  trace : List Event
  fs : FileSystem
  server : Option Server
  outcome : Outcome

/-- Lines 83-101 of `serve.go`: build the server, report the port, start the
accept loop, wait for cancellation, shut down, collect the loop's outcome. -/
def serveUntilDone (w : World) (fs : FileSystem) (t : List Event) (listener : Listener)
    (port : String) (bh : BlobHandler) (disk : String) : Run :=
  let s : Server := Server.mk 5000000000 (RegistryHandler.mk bh disk)
  let t := t ++ [Event.logPrintf "serving on port %s" [port]]
  -- errCh := make(chan error); go func() { errCh <- s.Serve(listener) }()
  let t := t ++ [Event.goServe listener]
  -- <-ctx.Done()
  let t := t ++ [Event.waitDone]
  match w.cancel with
  | none => Run.mk t fs (some s) Outcome.blocked
  | some reason =>
    let ctx : Context := Context.mk (some reason)
    let t := t ++ [Event.ctxDone ctx, Event.logPrintln "shutting down..."]
    match w.shutdown ctx with
    | some err => Run.mk (t ++ [Event.shutdown ctx (some err)]) fs (some s) (Outcome.returned (some err))
    | none =>
      let t := t ++ [Event.shutdown ctx none]
      match w.serve with
      | none => Run.mk t fs (some s) Outcome.blocked
      | some err =>
        let t := t ++ [Event.recvErrCh err]
        if !errorsIs err GoError.ErrServerClosed then
          Run.mk t fs (some s) (Outcome.returned err)
        else
          Run.mk t fs (some s) (Outcome.returned none)

/-- The closure `RunE` of `newCmdServe`, for the value `disk` of the flag. -/
def RunE (w : World) (disk : String) : Run :=
  -- ctx := cmd.Context()
  let port := osGetenv w.env "PORT"
  let t := [Event.getenv "PORT" port]
  let port := if port = "" then "0" else port
  let res := w.listen "tcp" (":" ++ port)
  let t := t ++ [Event.listen "tcp" (":" ++ port) res]
  match res with
  | .error err => Run.mk (t ++ [Event.logFatalln (some err)]) w.fs none (Outcome.exited 1)
  | .ok listener =>
    let porti := listener.port
    let port := toString porti
    let bh := BlobHandler.inMemory
    if disk ≠ "" then
      let serr := osStat w.fs disk
      let t := t ++ [Event.stat disk serr]
      if errorsIs serr GoError.ErrNotExist then
        let m := osMkdir w.fs disk
        let t := t ++ [Event.mkdir disk osModePerm m.1]
        match m.1 with
        | some err => Run.mk (t ++ [Event.logFatalln (some err)]) m.2 none (Outcome.exited 1)
        | none =>
          let bh := BlobHandler.onDisk disk
          let t := t ++ [Event.logPrintf "serving on-disk registry at %s" [disk]]
          serveUntilDone w m.2 t listener port bh disk
      else
        let bh := BlobHandler.onDisk disk
        let t := t ++ [Event.logPrintf "serving on-disk registry at %s" [disk]]
        serveUntilDone w w.fs t listener port bh disk
    else
      serveUntilDone w w.fs t listener port bh disk

/-- The flag `blobs-to-disk` as declared by `newCmdServe`
(`StringVar(&disk, name, value, usage)` followed by `MarkHidden`). -/
structure StringFlag where
  name : String
  value : String
  usage : String
  hidden : Bool
  deriving DecidableEq, Repr

/-- The flag set of the command built by `newCmdServe`. -/
def newCmdServeFlag : StringFlag :=
  StringFlag.mk "blobs-to-disk" "" "Store blobs on disk at the given path" true

/-- The command built by `newCmdServe`, run with the flag given (`some path`)
or left out (`none`): `disk` holds the flag's value, else its default. -/
def newCmdServe (w : World) (flag : Option String) : Run :=
  let disk := match flag with
    | some v => v
    | none => newCmdServeFlag.value
  RunE w disk

/-! ## Observations on traces -/

/-- The network and address of every `net.Listen` call of a trace, in order. -/
def listenCalls (t : List Event) : List (String × String) :=
  t.filterMap fun e => match e with
    | .listen network address _ => some (network, address)
    | _ => none

/-- The path of every `os.Mkdir` call of a trace, in order. -/
def mkdirCalls (t : List Event) : List String :=
  t.filterMap fun e => match e with
    | .mkdir path _ _ => some path
    | _ => none

/-- The context of every `s.Shutdown` call of a trace, in order. -/
def shutdownCalls (t : List Event) : List Context :=
  t.filterMap fun e => match e with
    | .shutdown ctx _ => some ctx
    | _ => none

/-- The listener of every start of the accept loop in a trace, in order. -/
def serveStarts (t : List Event) : List Listener :=
  t.filterMap fun e => match e with
    | .goServe l => some l
    | _ => none

/-- The events of a trace before the accept loop is first started. -/
def beforeServe (t : List Event) : List Event :=
  t.takeWhile fun e => match e with
    | .goServe _ => false
    | _ => true

/-- The events of a trace before `s.Shutdown` is first called. -/
def beforeShutdown (t : List Event) : List Event :=
  t.takeWhile fun e => match e with
    | .shutdown _ _ => false
    | _ => true

/-- The events of a trace before `RunE` first blocks on `ctx.Done()`. -/
def beforeWait (t : List Event) : List Event :=
  t.takeWhile fun e => match e with
    | .waitDone => false
    | _ => true

/-! ## The HTTP server's `Shutdown`, and concrete worlds -/

/-- The method `(*http.Server).Shutdown(ctx)` of net/http, as documented: it
closes the listeners (`lnerr` is the error of doing so) and returns once every
connection is idle; when the context is done before that, it returns the
context's error. `active` is the number of connections that are serving a
request when it is called. -/
def httpShutdown (active : Nat) (lnerr : error) (ctx : Context) : error :=
  if active = 0 then lnerr
  else
    match ctx.err with
    | some e => some e
    | none => lnerr

/-- A file system holding the working directory and nothing else, where every
directory can be created. -/
def workdirFS : FileSystem := FileSystem.mk [(".", Node.dir)] [] (fun _ => none)

/-- PORT unset, the OS assigns port 43210, the context is cancelled, the server
shuts down cleanly and the accept loop ends with a wrapped `ErrServerClosed`. -/
def cleanWorld : World :=
  World.mk (fun _ => none) (fun _ _ => .ok (Listener.mk 43210)) workdirFS
    (some .Canceled) (fun _ => none) (some (some (.wrap "serve" .ErrServerClosed)))

/-- The accept loop dies of a socket error; `Shutdown` itself succeeds. -/
def serveFailsWorld : World :=
  World.mk (fun _ => none) (fun _ _ => .ok (Listener.mk 43210)) workdirFS
    (some .Canceled) (fun _ => none) (some (some (.wrap "accept tcp" (.errno .EMFILE))))

/-- The accept loop dies of a socket error and `Shutdown` fails as well. -/
def bothFailWorld : World :=
  World.mk (fun _ => none) (fun _ _ => .ok (Listener.mk 43210)) workdirFS
    (some .Canceled) (fun _ => some (.other "close tcp: bad file descriptor"))
    (some (some (.wrap "accept tcp" (.errno .EMFILE))))

/-- The listeners fail to close: `Shutdown` returns that error. -/
def shutdownFailsWorld : World :=
  World.mk (fun _ => none) (fun _ _ => .ok (Listener.mk 43210)) workdirFS
    (some .Canceled) (fun _ => some (.other "close tcp: bad file descriptor"))
    (some (some .ErrServerClosed))

/-- One request is in flight when the context is cancelled; the server is the
net/http one and nothing else goes wrong. -/
def inflightWorld : World :=
  World.mk (fun _ => none) (fun _ _ => .ok (Listener.mk 43210)) workdirFS
    (some .Canceled) (httpShutdown 1 none) (some (some .ErrServerClosed))

/-- The process is started again over the file system a first run of
`cleanWorld` with storage path `./images` has left. -/
def restartWorld : World :=
  World.mk (fun _ => none) (fun _ _ => .ok (Listener.mk 43211))
    (RunE cleanWorld "./images").fs
    (some .Canceled) (fun _ => none) (some (some .ErrServerClosed))

/-- The server `cleanWorld` builds when the flag is given as `./images`. -/
def flagDemoServer : Server :=
  Server.mk 5000000000 (RegistryHandler.mk (.onDisk "./images") "./images")

/-- The storage path is a regular file. -/
def regularFileWorld : World :=
  World.mk (fun _ => none) (fun _ _ => .ok (Listener.mk 43210))
    (FileSystem.mk [(".", Node.dir), ("./images", Node.file "not a directory")] []
      (fun _ => none))
    (some .Canceled) (fun _ => none) (some (some .ErrServerClosed))

/-- The port asked for is taken. -/
def portBusyWorld : World :=
  World.mk (fun k => if k = "PORT" then some "5000" else none)
    (fun _ _ => .error (.wrap "listen tcp :5000" (.errno .EADDRINUSE))) workdirFS
    (some .Canceled) (fun _ => none) (some (some .ErrServerClosed))

/-- The storage directory cannot be created: the file system is read-only. -/
def readOnlyWorld : World :=
  World.mk (fun _ => none) (fun _ _ => .ok (Listener.mk 43210))
    (FileSystem.mk [(".", Node.dir)] [] (fun _ => some .EROFS))
    (some .Canceled) (fun _ => none) (some (some .ErrServerClosed))

/-- The working directory holds a regular file `./f`; the storage path used with
this world, `./f/sub`, lies under it. -/
def underFileWorld : World :=
  World.mk (fun _ => none) (fun _ _ => .ok (Listener.mk 43210))
    (FileSystem.mk [(".", Node.dir), ("./f", Node.file "data")] [] (fun _ => none))
    (some .Canceled) (fun _ => none) (some (some .ErrServerClosed))

/-- As `restartWorld`, but the port asked for is taken at the restart. -/
def restartBusyWorld : World :=
  World.mk (fun k => if k = "PORT" then some "5000" else none)
    (fun _ _ => .error (.wrap "listen tcp :5000" (.errno .EADDRINUSE)))
    (RunE cleanWorld "./images").fs
    (some .Canceled) (fun _ => none) (some (some .ErrServerClosed))

end Serve

namespace Serve

/-! ## Shutdown and error reporting -/

/-- C1. Clean shutdown is not an error: in every run in which cancellation is
observed, `Shutdown` returns nil and the outcome received from `errCh` is or
wraps `http.ErrServerClosed`, `RunE` returns nil. -/
theorem clean_shutdown_returns_nil (w : World) (disk : String) (ctx : Context) (e : error)
    (hdone : Event.ctxDone ctx ∈ (RunE w disk).trace)
    (hshut : Event.shutdown ctx none ∈ (RunE w disk).trace)
    (hrecv : Event.recvErrCh e ∈ (RunE w disk).trace)
    (hclosed : errorsIs e GoError.ErrServerClosed = true) :
    (RunE w disk).outcome = Outcome.returned none := by
  generalize hr : RunE w disk = r at *
  unfold RunE serveUntilDone at hr
  dsimp only at hr
  (repeat' split at hr) <;> subst hr <;> simp_all

theorem clean_shutdown_returns_nil_witness :
    Event.ctxDone (Context.mk (some .Canceled)) ∈ (RunE cleanWorld "").trace ∧
    Event.shutdown (Context.mk (some .Canceled)) none ∈ (RunE cleanWorld "").trace ∧
    Event.recvErrCh (some (.wrap "serve" .ErrServerClosed)) ∈ (RunE cleanWorld "").trace ∧
    (RunE cleanWorld "").outcome = Outcome.returned none :=
  ⟨by decide, by decide, by decide,
    clean_shutdown_returns_nil cleanWorld "" (Context.mk (some .Canceled))
      (some (.wrap "serve" .ErrServerClosed)) (by decide) (by decide) (by decide) (by decide)⟩

/-- C2, as stated, fails: cancellation is observed and the accept loop ends with
a socket error that is not `http.ErrServerClosed`, but `Shutdown` fails too;
`RunE` returns the error of `Shutdown` and never receives from `errCh`. -/
theorem serve_error_dropped_when_shutdown_fails :
    Event.ctxDone (Context.mk (some .Canceled)) ∈ (RunE bothFailWorld "").trace ∧
    bothFailWorld.serve = some (some (.wrap "accept tcp" (.errno .EMFILE))) ∧
    errorsIs (some (.wrap "accept tcp" (.errno .EMFILE))) GoError.ErrServerClosed = false ∧
    (RunE bothFailWorld "").outcome ≠ Outcome.returned (some (.wrap "accept tcp" (.errno .EMFILE))) ∧
    (RunE bothFailWorld "").outcome
      = Outcome.returned (some (.other "close tcp: bad file descriptor")) ∧
    Event.recvErrCh (some (.wrap "accept tcp" (.errno .EMFILE))) ∉ (RunE bothFailWorld "").trace := by
  decide

/-- C2, amended. A non-shutdown serve error is not lost when `Shutdown` succeeds:
in every run in which cancellation is observed, `Shutdown` returns nil and the
accept loop ends with an `e` that is not `http.ErrServerClosed`, `RunE` receives
`e` from `errCh` and returns it. -/
theorem serve_error_returned_after_shutdown_ok (w : World) (disk : String) (ctx : Context)
    (e : error)
    (hdone : Event.ctxDone ctx ∈ (RunE w disk).trace)
    (hshut : Event.shutdown ctx none ∈ (RunE w disk).trace)
    (hserve : w.serve = some e)
    (hne : errorsIs e GoError.ErrServerClosed = false) :
    Event.recvErrCh e ∈ (RunE w disk).trace ∧ (RunE w disk).outcome = Outcome.returned e := by
  generalize hr : RunE w disk = r at *
  unfold RunE serveUntilDone at hr
  dsimp only at hr
  (repeat' split at hr) <;> subst hr <;> simp_all

theorem serve_error_returned_after_shutdown_ok_witness :
    Event.recvErrCh (some (.wrap "accept tcp" (.errno .EMFILE))) ∈ (RunE serveFailsWorld "").trace ∧
    (RunE serveFailsWorld "").outcome
      = Outcome.returned (some (.wrap "accept tcp" (.errno .EMFILE))) :=
  serve_error_returned_after_shutdown_ok serveFailsWorld "" (Context.mk (some .Canceled))
    (some (.wrap "accept tcp" (.errno .EMFILE))) (by decide) (by decide) rfl (by decide)

/-- C3. A shutdown failure is surfaced and not retried: in every run in which
`Shutdown` returns a non-nil error `e`, `RunE` returns exactly `e` and `Shutdown`
is called exactly once. -/
theorem shutdown_error_surfaced_once (w : World) (disk : String) (ctx : Context) (e : GoError)
    (hshut : Event.shutdown ctx (some e) ∈ (RunE w disk).trace) :
    (RunE w disk).outcome = Outcome.returned (some e) ∧
    shutdownCalls (RunE w disk).trace = [ctx] := by
  generalize hr : RunE w disk = r at *
  unfold RunE serveUntilDone at hr
  dsimp only at hr
  (repeat' split at hr) <;> subst hr <;> simp_all [shutdownCalls]

theorem shutdown_error_surfaced_once_witness :
    (RunE shutdownFailsWorld "").outcome
      = Outcome.returned (some (.other "close tcp: bad file descriptor")) ∧
    shutdownCalls (RunE shutdownFailsWorld "").trace = [Context.mk (some .Canceled)] :=
  shutdown_error_surfaced_once shutdownFailsWorld "" (Context.mk (some .Canceled))
    (.other "close tcp: bad file descriptor") (by decide)

/-- C4, on the code. Every context handed to `Shutdown` is the command context
after its `Done` channel was seen closed: it is already cancelled (its `Err` is
non-nil) at the moment `Shutdown` is called. -/
theorem shutdown_context_already_done (w : World) (disk : String) (ctx : Context) (e : error)
    (hshut : Event.shutdown ctx e ∈ (RunE w disk).trace) :
    ctx.err ≠ none ∧ ctx.err = w.cancel ∧
    Event.ctxDone ctx ∈ beforeShutdown (RunE w disk).trace := by
  generalize hr : RunE w disk = r at *
  unfold RunE serveUntilDone at hr
  dsimp only at hr
  (repeat' split at hr) <;> subst hr <;> simp_all [beforeShutdown]

/-- C4, at the failing input. One request is in flight when the context is
cancelled: `Shutdown` is handed the cancelled context, net/http returns the
context's error at once, and `RunE` returns `context.Canceled` although the
deliberate shutdown is the only thing that happened to the server. -/
theorem inflight_request_cut_short :
    Event.shutdown (Context.mk (some .Canceled)) (some .Canceled) ∈ (RunE inflightWorld "").trace ∧
    (RunE inflightWorld "").outcome = Outcome.returned (some .Canceled) ∧
    (Context.mk (some GoError.Canceled)).err ≠ none :=
  ⟨by decide, by decide,
    (shutdown_context_already_done inflightWorld "" (Context.mk (some .Canceled))
      (some .Canceled) (by decide)).1⟩

/-! ## Port and backend selection -/

/-- The server value of a run, when one is built, is fixed by the storage path. -/
theorem RunE_server (w : World) (disk : String) :
    (RunE w disk).server = none ∨
    (RunE w disk).server = some (Server.mk 5000000000
      (RegistryHandler.mk (if disk = "" then BlobHandler.inMemory else BlobHandler.onDisk disk)
        disk)) := by
  generalize hr : RunE w disk = r at *
  unfold RunE serveUntilDone at hr
  dsimp only at hr
  (repeat' split at hr) <;> subst hr <;> simp_all

/-- C5. Requested-port resolution: `net.Listen` is called once, on network tcp,
with the address ":" followed by the value of PORT when PORT is set and
non-empty, and with ":0" when PORT is unset or empty. -/
theorem listen_address_from_PORT (w : World) (disk : String) :
    listenCalls (RunE w disk).trace =
      [("tcp", match w.env "PORT" with
        | some v => if v = "" then ":0" else ":" ++ v
        | none => ":0")] := by
  generalize hr : RunE w disk = r at *
  unfold RunE serveUntilDone at hr
  cases h : w.env "PORT" <;> simp only [osGetenv, h] at hr
  all_goals (repeat' split at hr) <;> subst hr <;> simp_all [listenCalls]

/-- C6. Backend selection is decided solely by the storage path: whenever the
command builds its server, the blob handler given to the registry handler is the
in-memory one if and only if the path (the flag's value, `""` when the flag is
left out) is empty, and otherwise is the on-disk handler rooted at that path. -/
theorem backend_selected_by_path (w : World) (flag : Option String) (s : Server)
    (hs : (newCmdServe w flag).server = some s) :
    (s.handler.blobHandler = BlobHandler.inMemory ↔ flag.getD "" = "") ∧
    (flag.getD "" ≠ "" → s.handler.blobHandler = BlobHandler.onDisk (flag.getD "")) ∧
    (flag = none → s.handler.blobHandler = BlobHandler.inMemory) := by
  have key : ∀ disk : String, (RunE w disk).server = some s →
      s.handler.blobHandler = if disk = "" then BlobHandler.inMemory else BlobHandler.onDisk disk := by
    intro disk h
    rcases RunE_server w disk with h0 | h0 <;> rw [h0] at h
    · cases h
    · cases h
      rfl
  cases flag with
  | none =>
    have h := key "" hs
    simp_all
  | some v =>
    have h := key v hs
    by_cases hv : v = "" <;> simp_all

theorem backend_selected_by_path_witness :
    (newCmdServe cleanWorld (some "./images")).server
      = some (Server.mk 5000000000 (RegistryHandler.mk (.onDisk "./images") "./images")) ∧
    (flagDemoServer.handler.blobHandler = BlobHandler.inMemory ↔ (some "./images").getD "" = "") ∧
    ((some "./images").getD "" ≠ "" →
      flagDemoServer.handler.blobHandler = BlobHandler.onDisk ((some "./images").getD "")) ∧
    ((some "./images" : Option String) = none →
      flagDemoServer.handler.blobHandler = BlobHandler.inMemory) :=
  ⟨by decide, backend_selected_by_path cleanWorld (some "./images") flagDemoServer (by decide)⟩

/-! ## The storage directory -/

/-- A successful `os.Mkdir` leaves a directory at the path. -/
theorem osMkdir_ok_isDir (fs : FileSystem) (path : String) (h : (osMkdir fs path).1 = none) :
    (osMkdir fs path).2.isDir path = true := by
  unfold osMkdir at *
  (repeat' split at h) <;> simp_all [FileSystem.isDir, List.lookup]

/-- Adding a directory at a free path breaks no path resolution. -/
theorem walk_after_insert (fs : FileSystem) (path : String)
    (hfree : fs.nodes.lookup path = none) (ds : List String) (h : walk fs ds = none) :
    walk (FileSystem.mk ((path, Node.dir) :: fs.nodes) fs.unsearchable fs.mkdirFault) ds
      = none := by
  induction ds with
  | nil => rfl
  | cons d ds ih =>
    unfold walk at h ⊢
    by_cases hd : d = path
    · subst hd
      simp [hfree] at h
    · have hb : (d == path) = false := by simpa using hd
      simp only [List.lookup, hb]
      cases hl : List.lookup d fs.nodes with
      | none => simp [hl] at h
      | some n =>
        cases n with
        | file data => simp [hl] at h
        | dir =>
          simp only [hl] at h ⊢
          by_cases hs : d ∈ fs.unsearchable
          · simp [hs] at h
          · simp only [hs, if_false] at h ⊢
            exact ih h

/-- After a successful `os.Mkdir` of a path, `os.Stat` of it succeeds. -/
theorem osStat_after_mkdir (fs : FileSystem) (path : String)
    (h : (osMkdir fs path).1 = none) : osStat (osMkdir fs path).2 path = none := by
  unfold osMkdir at *
  split at h
  · cases h
  · rename_i hw
    split at h
    · cases h
    · rename_i hfree
      split at h
      · cases h
      · simp only [osStat, walk_after_insert fs path hfree _ hw, List.lookup, beq_self_eq_true]

/-- A run over a storage path for which `os.Stat` does not report
`os.ErrNotExist` (it succeeds, or fails otherwise) creates nothing and leaves the
file system as it was; it is fatal only if the listener cannot be bound. -/
theorem RunE_no_mkdir (w : World) (disk : String)
    (hskip : errorsIs (osStat w.fs disk) GoError.ErrNotExist = false) :
    mkdirCalls (RunE w disk).trace = [] ∧ (RunE w disk).fs = w.fs ∧
    ∀ (a : String) (l : Listener), Event.listen "tcp" a (.ok l) ∈ (RunE w disk).trace →
      (RunE w disk).outcome ≠ Outcome.exited 1 := by
  generalize hr : RunE w disk = r at *
  unfold RunE serveUntilDone at hr
  dsimp only at hr
  (repeat' split at hr) <;> subst hr <;> simp_all [mkdirCalls]

/-- A run over a storage path that `os.Stat` reports missing calls `os.Mkdir`
once, on that path, and leaves the file system that call produced; unless the run
ends fatally, the call succeeded. -/
theorem RunE_missing_path (w : World) (disk : String) (a : String) (l : Listener)
    (hne : disk ≠ "")
    (habsent : errorsIs (osStat w.fs disk) GoError.ErrNotExist = true)
    (hbind : Event.listen "tcp" a (.ok l) ∈ (RunE w disk).trace) :
    mkdirCalls (RunE w disk).trace = [disk] ∧
    (RunE w disk).fs = (osMkdir w.fs disk).2 ∧
    ((RunE w disk).outcome ≠ Outcome.exited 1 → (osMkdir w.fs disk).1 = none) := by
  generalize hr : RunE w disk = r at *
  unfold RunE serveUntilDone at hr
  dsimp only at hr
  (repeat' split at hr) <;> subst hr <;> simp_all [mkdirCalls]

/-- C7, as stated, fails, at the non-empty storage paths `./images` and `./f/sub`,
neither of which exists at startup.
On a read-only file system startup calls `os.Mkdir` once, the call fails, the
process exits and no directory is there. With the port taken the process exits
before any `os.Mkdir`. Under the regular file `./f`, `os.Stat` fails with ENOTDIR,
which is not `os.ErrNotExist`: startup calls no `os.Mkdir`, is not fatal, and
serves with no directory at the path. And a restart over the file system of a
successful first run fails when it finds the port taken. -/
theorem missing_dir_not_always_created :
    ("./images" : String) ≠ "" ∧ ("./f/sub" : String) ≠ "" ∧
    (readOnlyWorld.fs.nodes.lookup "./images" = none ∧
      mkdirCalls (RunE readOnlyWorld "./images").trace = ["./images"] ∧
      (RunE readOnlyWorld "./images").outcome = Outcome.exited 1 ∧
      (RunE readOnlyWorld "./images").fs.isDir "./images" = false) ∧
    (portBusyWorld.fs.nodes.lookup "./images" = none ∧
      mkdirCalls (RunE portBusyWorld "./images").trace = [] ∧
      (RunE portBusyWorld "./images").fs.isDir "./images" = false) ∧
    (underFileWorld.fs.nodes.lookup "./f/sub" = none ∧
      errorsIs (osStat underFileWorld.fs "./f/sub") GoError.ErrNotExist = false ∧
      mkdirCalls (RunE underFileWorld "./f/sub").trace = [] ∧
      (RunE underFileWorld "./f/sub").outcome = Outcome.returned none ∧
      serveStarts (RunE underFileWorld "./f/sub").trace = [Listener.mk 43210] ∧
      (RunE underFileWorld "./f/sub").fs.isDir "./f/sub" = false) ∧
    (restartBusyWorld.fs.isDir "./images" = true ∧
      (RunE restartBusyWorld "./images").outcome = Outcome.exited 1) := by
  decide

/-- C7, amended. Directory creation is create-if-absent and idempotent across
restarts: for a non-empty storage path that `os.Stat` reports missing
(`os.ErrNotExist`), a startup that binds its listener calls `os.Mkdir` exactly
once, on that path, and leaves the file system that one call produces; if that
startup does not end fatally the path is then a directory, and every startup run
again over the file system it left, with the same path, that binds its listener
calls no `os.Mkdir`, leaves the file system (and so the directory's contents)
exactly as it was, and does not end fatally. -/
theorem storage_dir_created_once_then_kept (w : World) (disk : String) (a : String)
    (l : Listener)
    (hne : disk ≠ "")
    (habsent : errorsIs (osStat w.fs disk) GoError.ErrNotExist = true)
    (hbind : Event.listen "tcp" a (.ok l) ∈ (RunE w disk).trace) :
    mkdirCalls (RunE w disk).trace = [disk] ∧
    (RunE w disk).fs = (osMkdir w.fs disk).2 ∧
    ((RunE w disk).outcome ≠ Outcome.exited 1 →
      (RunE w disk).fs.isDir disk = true ∧
      ∀ (w2 : World) (a2 : String) (l2 : Listener), w2.fs = (RunE w disk).fs →
        Event.listen "tcp" a2 (.ok l2) ∈ (RunE w2 disk).trace →
        mkdirCalls (RunE w2 disk).trace = [] ∧
        (RunE w2 disk).fs = (RunE w disk).fs ∧
        (RunE w2 disk).outcome ≠ Outcome.exited 1) := by
  obtain ⟨h1, hfs, h2⟩ := RunE_missing_path w disk a l hne habsent hbind
  refine ⟨h1, hfs, fun hok => ?_⟩
  have hmk := h2 hok
  refine ⟨by rw [hfs]; exact osMkdir_ok_isDir w.fs disk hmk, ?_⟩
  intro w2 a2 l2 hw2 hbind2
  have hstat2 : osStat w2.fs disk = none := by
    rw [hw2, hfs]
    exact osStat_after_mkdir w.fs disk hmk
  obtain ⟨g1, g2, g3⟩ := RunE_no_mkdir w2 disk (by rw [hstat2]; rfl)
  exact ⟨g1, by rw [g2, hw2], g3 a2 l2 hbind2⟩

theorem storage_dir_created_once_then_kept_witness :
    mkdirCalls (RunE cleanWorld "./images").trace = ["./images"] ∧
    (RunE cleanWorld "./images").fs.isDir "./images" = true ∧
    mkdirCalls (RunE restartWorld "./images").trace = [] ∧
    (RunE restartWorld "./images").fs = (RunE cleanWorld "./images").fs ∧
    (RunE restartWorld "./images").outcome ≠ Outcome.exited 1 :=
  have h := storage_dir_created_once_then_kept cleanWorld "./images" ":0" (Listener.mk 43210)
    (by decide) (by decide) (by decide)
  ⟨h.1, (h.2.2 (by decide)).1,
    (h.2.2 (by decide)).2 restartWorld ":0" (Listener.mk 43211) rfl (by decide)⟩

/-- C8, as stated, fails: the storage path is a regular file; startup does not
end fatally, the on-disk blob handler is built on that path and serving begins,
yet the path does not name a directory. -/
theorem disk_handler_on_regular_file :
    ("./images" : String) ≠ "" ∧
    (RunE regularFileWorld "./images").outcome = Outcome.returned none ∧
    (RunE regularFileWorld "./images").server
      = some (Server.mk 5000000000 (RegistryHandler.mk (.onDisk "./images") "./images")) ∧
    serveStarts (RunE regularFileWorld "./images").trace = [Listener.mk 43210] ∧
    (RunE regularFileWorld "./images").fs.isDir "./images" = false := by
  decide

/-- C8, amended. On-disk backend invariant: for a non-empty storage path that is
a directory already or that `os.Stat` reports missing, if startup does not end
fatally then the on-disk blob handler is built on that path and, with the file
system as it is then, the path names an existing directory. -/
theorem disk_handler_on_directory (w : World) (disk : String)
    (hne : disk ≠ "")
    (hpath : errorsIs (osStat w.fs disk) GoError.ErrNotExist = true ∨ w.fs.isDir disk = true)
    (hok : (RunE w disk).outcome ≠ Outcome.exited 1) :
    (RunE w disk).server
      = some (Server.mk 5000000000 (RegistryHandler.mk (.onDisk disk) disk)) ∧
    (RunE w disk).fs.isDir disk = true := by
  have hmk := osMkdir_ok_isDir w.fs disk
  generalize hr : RunE w disk = r at *
  unfold RunE serveUntilDone at hr
  dsimp only at hr
  (repeat' split at hr) <;> subst hr <;> simp_all

theorem disk_handler_on_directory_witness :
    (RunE cleanWorld "./images").server
      = some (Server.mk 5000000000 (RegistryHandler.mk (.onDisk "./images") "./images")) ∧
    (RunE cleanWorld "./images").fs.isDir "./images" = true :=
  disk_handler_on_directory cleanWorld "./images" (by decide) (Or.inl (by decide)) (by decide)

/-! ## Startup failures and the port report -/

/-- C9. Startup failures are fatal, not returned: in every run in which
`net.Listen` fails, or `os.Mkdir` of the storage directory fails, with an error
`err`, the failing call is followed at once by `log.Fatalln(err)` and the process
exits with status 1: nothing is returned to the caller, no server is built, the
accept loop is never started, and the failing call is not repeated. -/
theorem startup_failure_is_fatal (w : World) (disk : String) (c : Event) (err : GoError)
    (n a path : String) (perm : Nat)
    (hc : c ∈ (RunE w disk).trace)
    (hfail : c = Event.listen n a (.error err) ∨ c = Event.mkdir path perm (some err)) :
    (RunE w disk).outcome = Outcome.exited 1 ∧
    (∀ e, (RunE w disk).outcome ≠ Outcome.returned e) ∧
    (RunE w disk).server = none ∧
    serveStarts (RunE w disk).trace = [] ∧
    (RunE w disk).trace.getLast? = some (Event.logFatalln (some err)) ∧
    (RunE w disk).trace.dropLast.getLast? = some c ∧
    (listenCalls (RunE w disk).trace).length = 1 ∧
    (mkdirCalls (RunE w disk).trace).length ≤ 1 := by
  generalize hr : RunE w disk = r at *
  unfold RunE serveUntilDone at hr
  dsimp only at hr
  rcases hfail with hfail | hfail <;> subst hfail <;>
    (repeat' split at hr) <;> subst hr <;> simp_all [serveStarts, listenCalls, mkdirCalls]

theorem startup_failure_is_fatal_witness :
    (RunE portBusyWorld "").outcome = Outcome.exited 1 ∧
    serveStarts (RunE portBusyWorld "").trace = [] ∧
    (RunE readOnlyWorld "./images").outcome = Outcome.exited 1 ∧
    serveStarts (RunE readOnlyWorld "./images").trace = [] :=
  have h1 := startup_failure_is_fatal portBusyWorld ""
    (Event.listen "tcp" ":5000" (.error (.wrap "listen tcp :5000" (.errno .EADDRINUSE))))
    (.wrap "listen tcp :5000" (.errno .EADDRINUSE)) "tcp" ":5000" "" 0 (by decide) (Or.inl rfl)
  have h2 := startup_failure_is_fatal readOnlyWorld "./images"
    (Event.mkdir "./images" osModePerm (some (.wrap "mkdir ./images" (.errno .EROFS))))
    (.wrap "mkdir ./images" (.errno .EROFS)) "" "" "./images" osModePerm (by decide) (Or.inr rfl)
  ⟨h1.1, h1.2.2.2.1, h2.1, h2.2.2.2.1⟩

/-- C10. Effective port is reported before serving: in every run that binds its
listener, the only argument ever logged with "serving on port %s" is the decimal
port of the listener's bound address; whenever the accept loop is started, that
line was logged before the start and before `RunE` blocks on `ctx.Done()`; and
unless the run ends fatally, the line is logged and the accept loop is started
on that listener. -/
theorem bound_port_logged_before_serving (w : World) (disk : String) (a : String)
    (l : Listener)
    (hbind : Event.listen "tcp" a (.ok l) ∈ (RunE w disk).trace) :
    (∀ args, Event.logPrintf "serving on port %s" args ∈ (RunE w disk).trace →
      args = [toString l.port]) ∧
    (serveStarts (RunE w disk).trace ≠ [] →
      Event.logPrintf "serving on port %s" [toString l.port] ∈ beforeServe (RunE w disk).trace ∧
      Event.logPrintf "serving on port %s" [toString l.port] ∈ beforeWait (RunE w disk).trace ∧
      Event.goServe l ∈ beforeWait (RunE w disk).trace) ∧
    ((RunE w disk).outcome ≠ Outcome.exited 1 →
      Event.logPrintf "serving on port %s" [toString l.port] ∈ (RunE w disk).trace ∧
      serveStarts (RunE w disk).trace = [l] ∧
      Event.waitDone ∈ (RunE w disk).trace) := by
  generalize hr : RunE w disk = r at *
  unfold RunE serveUntilDone at hr
  dsimp only at hr
  (repeat' split at hr) <;> subst hr <;>
    simp_all [serveStarts, beforeServe, beforeWait, List.takeWhile]

theorem bound_port_logged_before_serving_witness :
    Event.listen "tcp" ":0" (.ok (Listener.mk 43210)) ∈ (RunE cleanWorld "").trace ∧
    Event.logPrintf "serving on port %s" ["43210"] ∈ beforeServe (RunE cleanWorld "").trace ∧
    Event.logPrintf "serving on port %s" ["43210"] ∈ beforeWait (RunE cleanWorld "").trace ∧
    serveStarts (RunE cleanWorld "").trace = [Listener.mk 43210] :=
  have h := bound_port_logged_before_serving cleanWorld "" ":0" (Listener.mk 43210) (by decide)
  ⟨by decide, (h.2.1 (by decide)).1, (h.2.1 (by decide)).2.1, (h.2.2 (by decide)).2.1⟩

end Serve
